import Mathlib

/-!
Shallow embedding of the WellcomeML data-loading pipeline: `load_data`
(src/data/loading.py) and the decode loop of `load_wellcome_data` together
with `extract_all_fields` (src/scripts/loading.py).

Python values decoded from JSON are modelled by `Json`, with `Json.null`
playing the role of Python `None` (json.loads maps JSON null to None, so the
two are one value in Python as well). Code paths on which the Python code
would raise a TypeError (iterating a non-list, joining non-strings) are
modelled by neutral results; no claim exercises them.
-/

namespace WellcomeML

/-- A Python value as produced by `json.loads`; `Json.null` is Python `None`. -/
inductive Json where
  | null : Json
  | bool : Bool → Json
  | num : Int → Json
  | str : String → Json
  | arr : List Json → Json
  | obj : List (String × Json) → Json

mutual

/-- Structural equality of Python values (Python `==` on decoded JSON). -/
def Json.beq : Json → Json → Bool
  | .null, .null => true
  | .bool a, .bool b => a == b
  | .num a, .num b => a == b
  | .str a, .str b => a == b
  | .arr xs, .arr ys => beqArr xs ys
  | .obj xs, .obj ys => beqObj xs ys
  | _, _ => false

/-- Elementwise `Json.beq` on lists. -/
def beqArr : List Json → List Json → Bool
  | [], [] => true
  | x :: xs, y :: ys => Json.beq x y && beqArr xs ys
  | _, _ => false

/-- Pairwise `Json.beq` on association lists. -/
def beqObj : List (String × Json) → List (String × Json) → Bool
  | [], [] => true
  | (k1, v1) :: xs, (k2, v2) :: ys => k1 == k2 && Json.beq v1 v2 && beqObj xs ys
  | _, _ => false

end

/-- Python `j == "s"` for a string literal: true exactly for the equal string. -/
def isStrEq (j : Json) (s : String) : Bool :=
  match j with
  | .str t => t == s
  | _ => false

/-- First binding for key `k` in an association list (dict keys are unique). -/
def lookupKey (k : String) : List (String × Json) → Option Json
  | [] => none
  | (k2, v) :: rest => if k2 == k then some v else lookupKey k rest

/-- Python `d.get(k)` on a dict, `none` when the key is absent; `none` on
non-dicts (where Python would raise an AttributeError). -/
def Json.lookup : Json → String → Option Json
  | .obj fs, k => lookupKey k fs
  | _, _ => none

/-- Python `d.get(k, default)`. -/
def Json.getD (j : Json) (k : String) (d : Json) : Json :=
  match j.lookup k with
  | some v => v
  | none => d

/-- Python `k in d`. -/
def Json.hasKey (j : Json) (k : String) : Bool :=
  (j.lookup k).isSome

/-- Python truthiness of a decoded value. -/
def Json.truthy : Json → Bool
  | .null => false
  | .bool b => b
  | .num n => n != 0
  | .str s => s != ""
  | .arr xs => !xs.isEmpty
  | .obj fs => !fs.isEmpty

/-- Element list of a JSON array; `[]` for non-arrays (where the Python code
would instead raise when it iterates or indexes). -/
def Json.asArr : Json → List Json
  | .arr xs => xs
  | _ => []

/-- Python `str(...)` as used by the identifier f-string; only the `str` case
is reached on well-shaped data (Python joins raise on non-strings). -/
def pyStr : Json → String
  | .null => "None"
  | .bool true => "True"
  | .bool false => "False"
  | .num n => toString n
  | .str s => s
  | .arr _ => "<arr>"
  | .obj _ => "<obj>"

/-- Python `"sep".join(xs) if xs else None`, the list-to-string conversion
applied at the end of `extract_all_fields`. -/
def joinWith (sep : String) (xs : List Json) : Json :=
  if xs.isEmpty then Json.null else Json.str (String.intercalate sep (xs.map pyStr))

/-- ASCII lowering, Python `s.lower()` for the identifier types in scope. -/
def lowerStr (s : String) : String := String.mk (s.data.map Char.toLower)

/-- Character-list version of `List.isPrefixOf`, spelled out. -/
def charsStart : List Char → List Char → Bool
  | [], _ => true
  | _ :: _, [] => false
  | p :: ps, c :: cs => p == c && charsStart ps cs

/-- Contiguous-substring test on character lists, Python `pat in s`. -/
def charsHas (pat : List Char) : List Char → Bool
  | [] => pat.isEmpty
  | c :: cs => charsStart pat (c :: cs) || charsHas pat cs

/-- Python `"wellcome" in id_type.lower()`; False on non-strings, where
Python would raise before comparing. -/
def containsWellcome : Json → Bool
  | .str s => charsHas "wellcome".toList (lowerStr s).toList
  | _ => false

/-- Python `set(xs)` modelled as duplicate removal keeping first occurrences
(CPython specifies no iteration order for sets). -/
def dedupFirst : List Json → List Json
  | [] => []
  | x :: rest => x :: (dedupFirst rest).filter (fun y => !Json.beq y x)

/-- Shared body of the subjects / genres / languages loops: append the label
of every entry that has one, and the id of such an entry only when present.
The source repeats this loop verbatim for the three keys. -/
def labelIdFold : List Json → List Json × List Json
  | [] => ([], [])
  | entry :: rest =>
    let (ls, ids) := labelIdFold rest
    if entry.hasKey "label" then
      (entry.getD "label" Json.null :: ls,
       if entry.hasKey "id" then entry.getD "id" Json.null :: ids else ids)
    else (ls, ids)

/-- The contributors loop: for entries whose agent has a label, collect the
label, the agent id when present, and the first role's label (`"Unknown"`
when no role is listed, also the `.get` default when the first role lacks a
label). Returns (labels, ids, roles). -/
def contribFold : List Json → List Json × List Json × List Json
  | [] => ([], [], [])
  | contrib :: rest =>
    let (ls, ids, rs) := contribFold rest
    let agent := contrib.getD "agent" (Json.obj [])
    if agent.hasKey "label" then
      let ids2 := if agent.hasKey "id" then agent.getD "id" Json.null :: ids else ids
      let role :=
        match (contrib.getD "roles" (Json.arr [])).asArr with
        | r :: _ => r.getD "label" (Json.str "Unknown")
        | [] => Json.str "Unknown"
      (agent.getD "label" Json.null :: ls, ids2, role :: rs)
    else (ls, ids, rs)

/-- The places / agents sub-loops of the production block: labels of all
entries that carry one. -/
def labelsOf : List Json → List Json
  | [] => []
  | x :: rest =>
    if x.hasKey "label" then x.getD "label" Json.null :: labelsOf rest
    else labelsOf rest

/-- Production fields produced by the production block of
`extract_all_fields`. -/
structure ProdInfo where
  function : Json
  date : Json
  dateFrom : Json
  dateTo : Json
  places : List Json
  agents : List Json

/-- The production block: only `production[0]` is consulted; from it the
function label, the first date's label and (when a range is present) its
from/to bounds, and the labels of all places and agents. -/
def prodExtract (production : List Json) : ProdInfo :=
  match production with
  | [] => ⟨Json.null, Json.null, Json.null, Json.null, [], []⟩
  | prod :: _ =>
    let fn :=
      if prod.hasKey "function" then (prod.getD "function" Json.null).getD "label" Json.null
      else Json.null
    let (d, df, dt) :=
      match (prod.getD "dates" (Json.arr [])).asArr with
      | [] => (Json.null, Json.null, Json.null)
      | dateObj :: _ =>
        let lbl := dateObj.getD "label" Json.null
        if dateObj.hasKey "range" then
          let r := dateObj.getD "range" Json.null
          (lbl, r.getD "from" Json.null, r.getD "to" Json.null)
        else (lbl, Json.null, Json.null)
    ⟨fn, d, df, dt,
     labelsOf (prod.getD "places" (Json.arr [])).asArr,
     labelsOf (prod.getD "agents" (Json.arr [])).asArr⟩

/-- Accumulator of the identifiers loop: the master `type:value` list and the
four routed scalar slots. -/
structure IdentAcc where
  lst : List Json
  isbn : Json
  issn : Json
  sierra : Json
  wellcome : Json

/-- One iteration of the identifiers loop: skip entries whose type id or
value is falsy; otherwise append `"type:value"` and route the value through
the elif chain (exact `isbn` / `issn` / `sierra-system-number`, then the
case-insensitive `wellcome` substring test). Assignment overwrites, so a
later entry of the same routed kind wins. -/
def identStep (acc : IdentAcc) (ident : Json) : IdentAcc :=
  let idType := (ident.getD "identifierType" (Json.obj [])).getD "id" (Json.str "")
  let idValue := ident.getD "value" (Json.str "")
  if idType.truthy && idValue.truthy then
    let acc2 := { acc with lst := acc.lst ++ [Json.str (pyStr idType ++ ":" ++ pyStr idValue)] }
    if isStrEq idType "isbn" then { acc2 with isbn := idValue }
    else if isStrEq idType "issn" then { acc2 with issn := idValue }
    else if isStrEq idType "sierra-system-number" then { acc2 with sierra := idValue }
    else if containsWellcome idType then { acc2 with wellcome := idValue }
    else acc2
  else acc

/-- The identifiers loop over the whole list. -/
def identFold (l : List Json) : IdentAcc :=
  l.foldl identStep ⟨[], Json.null, Json.null, Json.null, Json.null⟩

/-- Python `isinstance(content, str)`. -/
def Json.isStr : Json → Bool
  | .str _ => true
  | _ => false

/-- The notes loop: every note contributes its type label (default
`"general"`), and every string-typed content item is collected. Returns
(note types, note contents). -/
def noteFold : List Json → List Json × List Json
  | [] => ([], [])
  | note :: rest =>
    let (ts, cs) := noteFold rest
    ((note.getD "noteType" (Json.obj [])).getD "label" (Json.str "general") :: ts,
     ((note.getD "contents" (Json.arr [])).asArr).filter Json.isStr ++ cs)

/-- The access-conditions loop of one location: collect the status label of
every condition that has a `status` key and a truthy label. -/
def condLabels : List Json → List Json
  | [] => []
  | cond :: rest =>
    let tail := condLabels rest
    if cond.hasKey "status" then
      let status := (cond.getD "status" Json.null).getD "label" Json.null
      if status.truthy then status :: tail else tail
    else tail

/-- The locations loop of one item: the digitized flag is set when some
location type id equals `"online"`; availability labels accumulate. -/
def locScan : List Json → Bool × List Json
  | [] => (false, [])
  | loc :: rest =>
    let (b, ls) := locScan rest
    let online := isStrEq ((loc.getD "locationType" (Json.obj [])).getD "id" Json.null) "online"
    (online || b, condLabels ((loc.getD "accessConditions" (Json.arr [])).asArr) ++ ls)

/-- The items loop: fold `locScan` over every item's location list. -/
def itemScan : List Json → Bool × List Json
  | [] => (false, [])
  | item :: rest =>
    let (b, ls) := itemScan rest
    let (b2, ls2) := locScan ((item.getD "locations" (Json.arr [])).asArr)
    (b2 || b, ls2 ++ ls)

/-- Shared shape of the partOf / precededBy / succeededBy blocks: when the
key is present and its value truthy, the first element's title and id. -/
def firstTitleId (work : Json) (key : String) : Json × Json :=
  if work.hasKey key && (work.getD key Json.null).truthy then
    match (work.getD key Json.null).asArr with
    | x :: _ => (x.getD "title" Json.null, x.getD "id" Json.null)
    | [] => (Json.null, Json.null)
  else (Json.null, Json.null)

/-- The fixed flat schema: the keys of the `parsed` dict literal of
`extract_all_fields`, in insertion order. Every field holds a Python value
(`Json.null` for Python `None`). -/
structure FlatRecord where
  id : Json
  title : Json
  alternativeTitles : Json
  workType : Json
  workType_id : Json
  description : Json
  physicalDescription : Json
  lettering : Json
  edition : Json
  production_date : Json
  production_date_from : Json
  production_date_to : Json
  production_places : Json
  production_agents : Json
  production_function : Json
  contributors : Json
  contributor_roles : Json
  contributor_ids : Json
  subjects : Json
  subject_ids : Json
  genres : Json
  genre_ids : Json
  languages : Json
  language_ids : Json
  identifiers : Json
  isbn : Json
  issn : Json
  sierra_system_number : Json
  wellcome_library_number : Json
  notes : Json
  note_types : Json
  thumbnail_url : Json
  has_digitized_items : Json
  items_count : Json
  availability_status : Json
  partOf_title : Json
  partOf_id : Json
  parts_count : Json
  precededBy_title : Json
  precededBy_id : Json
  succeededBy_title : Json
  succeededBy_id : Json
  holdings_count : Json
  referenceNumber : Json
  images_count : Json

/-- Final state of `extract_all_fields(work)`: the dict after all loops have
run and the list fields have been converted by the join block. -/
def extract_all_fields (work : Json) : FlatRecord :=
  let altTitles := work.getD "alternativeTitles" (Json.arr [])
  let prodInfo := prodExtract ((work.getD "production" (Json.arr [])).asArr)
  let cf := contribFold ((work.getD "contributors" (Json.arr [])).asArr)
  let sf := labelIdFold ((work.getD "subjects" (Json.arr [])).asArr)
  let gf := labelIdFold ((work.getD "genres" (Json.arr [])).asArr)
  let lf := labelIdFold ((work.getD "languages" (Json.arr [])).asArr)
  let idf := identFold ((work.getD "identifiers" (Json.arr [])).asArr)
  let nf := noteFold ((work.getD "notes" (Json.arr [])).asArr)
  let thumbnail := work.getD "thumbnail" (Json.obj [])
  let items := (work.getD "items" (Json.arr [])).asArr
  let iscan := itemScan items
  let partOf := firstTitleId work "partOf"
  let precededBy := firstTitleId work "precededBy"
  let succeededBy := firstTitleId work "succeededBy"
  { id := work.getD "id" Json.null
    title := work.getD "title" Json.null
    alternativeTitles :=
      if altTitles.truthy then Json.str (String.intercalate "; " (altTitles.asArr.map pyStr))
      else Json.null
    workType := (work.getD "workType" (Json.obj [])).getD "label" Json.null
    workType_id := (work.getD "workType" (Json.obj [])).getD "id" Json.null
    description := work.getD "description" Json.null
    physicalDescription := work.getD "physicalDescription" Json.null
    lettering := work.getD "lettering" Json.null
    edition := work.getD "edition" Json.null
    production_date := prodInfo.date
    production_date_from := prodInfo.dateFrom
    production_date_to := prodInfo.dateTo
    production_places := joinWith "; " prodInfo.places
    production_agents := joinWith "; " prodInfo.agents
    production_function := prodInfo.function
    contributors := joinWith "; " cf.1
    contributor_roles := joinWith "; " cf.2.2
    contributor_ids := joinWith "; " cf.2.1
    subjects := joinWith "; " sf.1
    subject_ids := joinWith "; " sf.2
    genres := joinWith "; " gf.1
    genre_ids := joinWith "; " gf.2
    languages := joinWith "; " lf.1
    language_ids := joinWith "; " lf.2
    identifiers := joinWith "; " idf.lst
    isbn := idf.isbn
    issn := idf.issn
    sierra_system_number := idf.sierra
    wellcome_library_number := idf.wellcome
    notes := joinWith " | " nf.2
    note_types := joinWith "; " nf.1
    thumbnail_url := if thumbnail.truthy then thumbnail.getD "url" Json.null else Json.null
    has_digitized_items := Json.bool iscan.1
    items_count := Json.num (items.length : Int)
    availability_status :=
      if iscan.2.isEmpty then Json.null
      else Json.str (String.intercalate "; " ((dedupFirst iscan.2).map pyStr))
    partOf_title := partOf.1
    partOf_id := partOf.2
    parts_count := Json.num (((work.getD "parts" (Json.arr [])).asArr.length : Int))
    precededBy_title := precededBy.1
    precededBy_id := precededBy.2
    succeededBy_title := succeededBy.1
    succeededBy_id := succeededBy.2
    holdings_count := Json.num (((work.getD "holdings" (Json.arr [])).asArr.length : Int))
    referenceNumber := work.getD "referenceNumber" Json.null
    images_count := Json.num (((work.getD "images" (Json.arr [])).asArr.length : Int)) }

/-- The flat dict viewed as key/value pairs, in the insertion order of the
`parsed` dict literal. -/
def FlatRecord.toPairs (r : FlatRecord) : List (String × Json) :=
  [("id", r.id), ("title", r.title), ("alternativeTitles", r.alternativeTitles),
   ("workType", r.workType), ("workType_id", r.workType_id),
   ("description", r.description), ("physicalDescription", r.physicalDescription),
   ("lettering", r.lettering), ("edition", r.edition),
   ("production_date", r.production_date),
   ("production_date_from", r.production_date_from),
   ("production_date_to", r.production_date_to),
   ("production_places", r.production_places),
   ("production_agents", r.production_agents),
   ("production_function", r.production_function),
   ("contributors", r.contributors), ("contributor_roles", r.contributor_roles),
   ("contributor_ids", r.contributor_ids),
   ("subjects", r.subjects), ("subject_ids", r.subject_ids),
   ("genres", r.genres), ("genre_ids", r.genre_ids),
   ("languages", r.languages), ("language_ids", r.language_ids),
   ("identifiers", r.identifiers), ("isbn", r.isbn), ("issn", r.issn),
   ("sierra_system_number", r.sierra_system_number),
   ("wellcome_library_number", r.wellcome_library_number),
   ("notes", r.notes), ("note_types", r.note_types),
   ("thumbnail_url", r.thumbnail_url),
   ("has_digitized_items", r.has_digitized_items),
   ("items_count", r.items_count),
   ("availability_status", r.availability_status),
   ("partOf_title", r.partOf_title), ("partOf_id", r.partOf_id),
   ("parts_count", r.parts_count),
   ("precededBy_title", r.precededBy_title), ("precededBy_id", r.precededBy_id),
   ("succeededBy_title", r.succeededBy_title), ("succeededBy_id", r.succeededBy_id),
   ("holdings_count", r.holdings_count),
   ("referenceNumber", r.referenceNumber), ("images_count", r.images_count)]

/-- The fixed key set of every FlatRecord. -/
def flatKeys : List String :=
  ["id", "title", "alternativeTitles", "workType", "workType_id",
   "description", "physicalDescription", "lettering", "edition",
   "production_date", "production_date_from", "production_date_to",
   "production_places", "production_agents", "production_function",
   "contributors", "contributor_roles", "contributor_ids",
   "subjects", "subject_ids", "genres", "genre_ids",
   "languages", "language_ids",
   "identifiers", "isbn", "issn", "sierra_system_number",
   "wellcome_library_number", "notes", "note_types",
   "thumbnail_url", "has_digitized_items", "items_count",
   "availability_status", "partOf_title", "partOf_id", "parts_count",
   "precededBy_title", "precededBy_id", "succeededBy_title", "succeededBy_id",
   "holdings_count", "referenceNumber", "images_count"]

/-- One input line of the gzipped NDJSON stream: `some r` when the line
parses as JSON to the record `r`, `none` when `json.loads` raises
`JSONDecodeError` on it. -/
abbrev Line := Option Json

/-- Python `n_samples is not None and i >= n_samples`. -/
def capHit : Option Nat → Nat → Bool
  | none, _ => false
  | some n, i => decide (n ≤ i)

/-- The decode loop of `load_wellcome_data`: enumerate lines with index `i`,
break when the cap is hit, parse the line, flatten it and append; a line
that fails to parse is skipped by `continue` (note that `enumerate` still
advances `i` on it). -/
def loadWorks : Option Nat → Nat → List Line → List FlatRecord
  | _, _, [] => []
  | cap, i, line :: rest =>
    if capHit cap i then []
    else
      match line with
      | some work => extract_all_fields work :: loadWorks cap (i + 1) rest
      | none => loadWorks cap (i + 1) rest

/-- The streaming decode-and-flatten stage of `load_wellcome_data`, applied
to the decompressed lines of the snapshot file. -/
def load_wellcome_data (n_samples : Option Nat) (lines : List Line) : List FlatRecord :=
  loadWorks n_samples 0 lines

/-- Errors raised by `load_data` (src/data/loading.py): `FileNotFoundError`
for a missing path, `json.JSONDecodeError` escaping from `json.loads`. -/
inductive LoadError where
  | fileNotFound : LoadError
  | jsonDecode : LoadError
deriving DecidableEq, Repr

/-- The line loop of `load_data`: append the parse of every line; a line
that fails to parse raises, aborting the whole call. -/
def loadLines : List Line → Except LoadError (List Json)
  | [] => .ok []
  | some j :: rest =>
    match loadLines rest with
    | .ok l => .ok (j :: l)
    | .error e => .error e
  | none :: _ => .error .jsonDecode

/-- Python `load_data(path)` (src/data/loading.py) over a model filesystem
`files` mapping each existing path to its decompressed lines: raise
`FileNotFoundError` when `os.path.exists(path)` is false, before any read;
otherwise decode every line, propagating parse failures. -/
def load_data (files : String → Option (List Line)) (path : String) :
    Except LoadError (List Json) :=
  match files path with
  | none => .error .fileNotFound
  | some lines => loadLines lines

/-! Spec-side definitions, written from the specification's wording, to be
compared with the definitions above that embed the source. -/

/-- The decoded production list of a record. -/
def prodList (w : Json) : List Json := (w.getD "production" (Json.arr [])).asArr

/-- The decoded contributors list of a record. -/
def contribList (w : Json) : List Json := (w.getD "contributors" (Json.arr [])).asArr

/-- The decoded identifiers list of a record. -/
def identList (w : Json) : List Json := (w.getD "identifiers" (Json.arr [])).asArr

/-- The decoded items list of a record. -/
def itemList (w : Json) : List Json := (w.getD "items" (Json.arr [])).asArr

/-- The locations of one item. -/
def locList (item : Json) : List Json := (item.getD "locations" (Json.arr [])).asArr

/-- An entry (contributor) whose agent carries a label. -/
def hasAgentLabel (c : Json) : Bool := (c.getD "agent" (Json.obj [])).hasKey "label"

/-- The agent label of a contributor. -/
def agentLabel (c : Json) : Json := (c.getD "agent" (Json.obj [])).getD "label" Json.null

/-- Whether a contributor's agent carries an id. -/
def hasAgentId (c : Json) : Bool := (c.getD "agent" (Json.obj [])).hasKey "id"

/-- The agent id of a contributor. -/
def agentId (c : Json) : Json := (c.getD "agent" (Json.obj [])).getD "id" Json.null

/-- Spec: the first listed role's label, or the literal `"Unknown"` when no
role is listed (`"Unknown"` is also the `.get` default of the source when
the first role lacks a label). -/
def specRoleOf (c : Json) : Json :=
  match (c.getD "roles" (Json.arr [])).asArr with
  | r :: _ => r.getD "label" (Json.str "Unknown")
  | [] => Json.str "Unknown"

/-- Whether a list entry carries a label. -/
def entryHasLabel (x : Json) : Bool := x.hasKey "label"

/-- The label of a list entry. -/
def entryLabel (x : Json) : Json := x.getD "label" Json.null

/-- Whether a list entry carries an id. -/
def entryHasId (x : Json) : Bool := x.hasKey "id"

/-- The id of a list entry. -/
def entryId (x : Json) : Json := x.getD "id" Json.null

/-- The type id of an identifier entry (default `""`). -/
def identTypeOf (ident : Json) : Json :=
  (ident.getD "identifierType" (Json.obj [])).getD "id" (Json.str "")

/-- The value of an identifier entry (default `""`). -/
def identValueOf (ident : Json) : Json := ident.getD "value" (Json.str "")

/-- Spec: an identifier entry counts when both its type id and its value are
non-empty (truthy). -/
def identQualifies (ident : Json) : Bool :=
  (identTypeOf ident).truthy && (identValueOf ident).truthy

/-- Spec: each qualifying identifier entry contributes `"type:value"` to the
master list. -/
def specIdentEntries (l : List Json) : List Json :=
  (l.filter identQualifies).map
    (fun i => Json.str (pyStr (identTypeOf i) ++ ":" ++ pyStr (identValueOf i)))

/-- Spec: last-wins routing — the value of the last qualifying entry whose
type id satisfies `p`, or null when there is none. -/
def specRoute (p : Json → Bool) (l : List Json) : Json :=
  (((l.filter (fun i => identQualifies i && p (identTypeOf i))).map identValueOf).getLast?).getD
    Json.null

/-- Spec: the digitized flag holds exactly when some location of some item
has location type id `"online"`. -/
def specHasDigitized (items : List Json) : Bool :=
  items.any fun item =>
    (locList item).any fun loc =>
      isStrEq ((loc.getD "locationType" (Json.obj [])).getD "id" Json.null) "online"

/-- The access-condition status label of a condition (null when absent). -/
def specStatusLabel (cond : Json) : Json :=
  (cond.getD "status" Json.null).getD "label" Json.null

/-- Spec: every access-condition status label collected across all items and
locations; only conditions with a `status` key and a truthy label count. -/
def specAvailLabels (items : List Json) : List Json :=
  items.flatMap fun item =>
    (locList item).flatMap fun loc =>
      (((loc.getD "accessConditions" (Json.arr [])).asArr).filter
        (fun cond => cond.hasKey "status" && (specStatusLabel cond).truthy)).map specStatusLabel

/-! Concrete example records used by the worked examples of the spec. -/

/-- The identifier example of the spec: an isbn and a wellcome-number. -/
def exampleIdentWork : Json :=
  Json.obj [("identifiers", Json.arr
    [Json.obj [("identifierType", Json.obj [("id", Json.str "isbn")]),
               ("value", Json.str "123")],
     Json.obj [("identifierType", Json.obj [("id", Json.str "wellcome-number")]),
               ("value", Json.str "W1")]])]

/-- The date object of the production example of the spec. -/
def exampleProdDate : Json :=
  Json.obj [("label", Json.str "1990"),
            ("range", Json.obj [("from", Json.num 1990), ("to", Json.num 1990)])]

/-- The single production event of the production example of the spec. -/
def exampleProdEvent : Json :=
  Json.obj [("dates", Json.arr [exampleProdDate])]

/-- The production example of the spec: one event with one dated range. -/
def exampleProdWork : Json :=
  Json.obj [("production", Json.arr [exampleProdEvent])]

/-- The items example of the spec: one online and one physical location. -/
def exampleItemsWork : Json :=
  Json.obj [("items", Json.arr
    [Json.obj [("locations", Json.arr
       [Json.obj [("locationType", Json.obj [("id", Json.str "online")])]])],
     Json.obj [("locations", Json.arr
       [Json.obj [("locationType", Json.obj [("id", Json.str "physical")])]])]])]

/-- A record whose only access conditions carry empty-string status labels. -/
def exampleEmptyStatusWork : Json :=
  Json.obj [("items", Json.arr [Json.obj [("locations", Json.arr
    [Json.obj [("accessConditions", Json.arr
       [Json.obj [("status", Json.obj [("label", Json.str "")])]])]])]])]

/-- A record with a single subject that has a label but no id. -/
def exampleNoIdSubjectWork : Json :=
  Json.obj [("subjects", Json.arr [Json.obj [("label", Json.str "X")]])]

/-! Helper lemmas: each loop of `extract_all_fields` equals its declarative
filter/map description. -/

theorem labelIdFold_eq (l : List Json) :
    labelIdFold l
      = ((l.filter entryHasLabel).map entryLabel,
         ((l.filter entryHasLabel).filter entryHasId).map entryId) := by
  induction l with
  | nil => rfl
  | cons x rest ih =>
    by_cases h1 : x.hasKey "label" = true
    · by_cases h2 : x.hasKey "id" = true <;>
        simp [labelIdFold, ih, List.filter_cons, List.filter_filter, entryHasLabel, entryHasId,
          entryLabel, entryId, h1, h2]
    · simp [labelIdFold, ih, List.filter_cons, entryHasLabel, entryLabel, h1]

theorem contribFold_eq (l : List Json) :
    contribFold l
      = ((l.filter hasAgentLabel).map agentLabel,
         ((l.filter hasAgentLabel).filter hasAgentId).map agentId,
         (l.filter hasAgentLabel).map specRoleOf) := by
  induction l with
  | nil => rfl
  | cons c rest ih =>
    by_cases h1 : (c.getD "agent" (Json.obj [])).hasKey "label" = true
    · by_cases h2 : (c.getD "agent" (Json.obj [])).hasKey "id" = true <;>
        simp [contribFold, ih, List.filter_cons, List.filter_filter, hasAgentLabel, hasAgentId,
          agentLabel, agentId, specRoleOf, h1, h2]
    · simp [contribFold, ih, List.filter_cons, hasAgentLabel, h1]

theorem labelsOf_eq (l : List Json) :
    labelsOf l = (l.filter entryHasLabel).map entryLabel := by
  induction l with
  | nil => rfl
  | cons x rest ih =>
    by_cases h1 : x.hasKey "label" = true <;>
      simp [labelsOf, ih, List.filter_cons, entryHasLabel, entryLabel, h1]

theorem condLabels_eq (l : List Json) :
    condLabels l
      = (l.filter (fun c => c.hasKey "status" && (specStatusLabel c).truthy)).map
          specStatusLabel := by
  induction l with
  | nil => rfl
  | cons c rest ih =>
    by_cases h1 : c.hasKey "status" = true
    · by_cases h2 : ((c.getD "status" Json.null).getD "label" Json.null).truthy = true <;>
        simp [condLabels, ih, List.filter_cons, specStatusLabel, h1, h2]
    · simp [condLabels, ih, List.filter_cons, specStatusLabel, h1]

theorem locScan_eq (l : List Json) :
    locScan l
      = (l.any (fun loc =>
           isStrEq ((loc.getD "locationType" (Json.obj [])).getD "id" Json.null) "online"),
         l.flatMap (fun loc => condLabels ((loc.getD "accessConditions" (Json.arr [])).asArr))) := by
  induction l with
  | nil => rfl
  | cons loc rest ih => simp [locScan, ih]

theorem itemScan_eq (items : List Json) :
    itemScan items = (specHasDigitized items, specAvailLabels items) := by
  induction items with
  | nil => rfl
  | cons item rest ih =>
    simp [itemScan, ih, locScan_eq, condLabels_eq, specHasDigitized, specAvailLabels, locList,
      List.flatMap_cons]

theorem getLast?_getD_cons {α : Type} (l : List α) (a d : α) :
    ((a :: l).getLast?).getD d = (l.getLast?).getD a := by
  cases l with
  | nil => rfl
  | cons b m => rw [List.getLast?_cons_cons]; cases h : (b :: m).getLast? with
    | none => simp at h
    | some x => rfl

theorem isStrEq_ne (t : Json) (a b : String) (h : isStrEq t a = true) (hab : a ≠ b) :
    isStrEq t b = false := by
  cases t with
  | str s =>
    have hs : s = a := by simpa [isStrEq] using h
    subst hs
    simpa [isStrEq] using hab
  | null => simp [isStrEq] at h
  | bool x => simp [isStrEq] at h
  | num x => simp [isStrEq] at h
  | arr x => simp [isStrEq] at h
  | obj x => simp [isStrEq] at h

theorem wellcome_not_exact (t : Json) (h : containsWellcome t = true) :
    isStrEq t "isbn" = false ∧ isStrEq t "issn" = false
      ∧ isStrEq t "sierra-system-number" = false := by
  cases t with
  | str s =>
    refine ⟨?_, ?_, ?_⟩
    · by_cases hs : s = "isbn"
      · subst hs; exact absurd h (by decide)
      · simp [isStrEq, hs]
    · by_cases hs : s = "issn"
      · subst hs; exact absurd h (by decide)
      · simp [isStrEq, hs]
    · by_cases hs : s = "sierra-system-number"
      · subst hs; exact absurd h (by decide)
      · simp [isStrEq, hs]
  | null => exact absurd h (by simp [containsWellcome])
  | bool b => exact absurd h (by simp [containsWellcome])
  | num n => exact absurd h (by simp [containsWellcome])
  | arr xs => exact absurd h (by simp [containsWellcome])
  | obj fs => exact absurd h (by simp [containsWellcome])

theorem identStep_fields (acc : IdentAcc) (i : Json) :
    (identStep acc i).lst
        = acc.lst ++ (if identQualifies i then
            [Json.str (pyStr (identTypeOf i) ++ ":" ++ pyStr (identValueOf i))] else [])
      ∧ (identStep acc i).isbn
        = (if identQualifies i && isStrEq (identTypeOf i) "isbn" then identValueOf i else acc.isbn)
      ∧ (identStep acc i).issn
        = (if identQualifies i && isStrEq (identTypeOf i) "issn" then identValueOf i else acc.issn)
      ∧ (identStep acc i).sierra
        = (if identQualifies i && isStrEq (identTypeOf i) "sierra-system-number" then
            identValueOf i else acc.sierra)
      ∧ (identStep acc i).wellcome
        = (if identQualifies i && containsWellcome (identTypeOf i) then
            identValueOf i else acc.wellcome) := by
  simp only [identStep, identQualifies, identTypeOf, identValueOf]
  set t := (i.getD "identifierType" (Json.obj [])).getD "id" (Json.str "") with ht
  set v := i.getD "value" (Json.str "") with hv
  by_cases ha : t.truthy = true
  · by_cases hb : v.truthy = true
    · by_cases h1 : isStrEq t "isbn" = true
      · have hw : containsWellcome t = false := by
          cases hcw : containsWellcome t with
          | false => rfl
          | true => exact absurd (wellcome_not_exact t hcw).1 (by simp [h1])
        simp [ha, hb, h1, hw, isStrEq_ne t "isbn" "issn" h1 (by decide),
          isStrEq_ne t "isbn" "sierra-system-number" h1 (by decide)]
      · by_cases h2 : isStrEq t "issn" = true
        · have hw : containsWellcome t = false := by
            cases hcw : containsWellcome t with
            | false => rfl
            | true => exact absurd (wellcome_not_exact t hcw).2.1 (by simp [h2])
          simp [ha, hb, h1, h2, hw, isStrEq_ne t "issn" "sierra-system-number" h2 (by decide)]
        · by_cases h3 : isStrEq t "sierra-system-number" = true
          · have hw : containsWellcome t = false := by
              cases hcw : containsWellcome t with
              | false => rfl
              | true => exact absurd (wellcome_not_exact t hcw).2.2 (by simp [h3])
            simp [ha, hb, h1, h2, h3, hw]
          · by_cases h4 : containsWellcome t = true <;> simp [ha, hb, h1, h2, h3, h4]
    · simp [hb]
  · simp [ha]

theorem identFold_go (l : List Json) : ∀ acc : IdentAcc,
    (List.foldl identStep acc l).lst = acc.lst ++ specIdentEntries l
    ∧ (List.foldl identStep acc l).isbn
        = (((l.filter (fun i => identQualifies i && isStrEq (identTypeOf i) "isbn")).map
            identValueOf).getLast?).getD acc.isbn
    ∧ (List.foldl identStep acc l).issn
        = (((l.filter (fun i => identQualifies i && isStrEq (identTypeOf i) "issn")).map
            identValueOf).getLast?).getD acc.issn
    ∧ (List.foldl identStep acc l).sierra
        = (((l.filter (fun i =>
            identQualifies i && isStrEq (identTypeOf i) "sierra-system-number")).map
            identValueOf).getLast?).getD acc.sierra
    ∧ (List.foldl identStep acc l).wellcome
        = (((l.filter (fun i => identQualifies i && containsWellcome (identTypeOf i))).map
            identValueOf).getLast?).getD acc.wellcome := by
  induction l with
  | nil => intro acc; simp [specIdentEntries]
  | cons i rest ih =>
    intro acc
    obtain ⟨hl, hb, hs, hsi, hw⟩ := ih (identStep acc i)
    obtain ⟨sl, sb, ss, ssi, sw⟩ := identStep_fields acc i
    refine ⟨?_, ?_, ?_, ?_, ?_⟩
    · rw [List.foldl_cons, hl, sl]
      by_cases hq : identQualifies i = true <;>
        simp [specIdentEntries, List.filter_cons, hq, List.append_assoc]
    · rw [List.foldl_cons, hb, sb, List.filter_cons]
      by_cases hq : (identQualifies i && isStrEq (identTypeOf i) "isbn") = true <;>
        simp [hq, getLast?_getD_cons]
    · rw [List.foldl_cons, hs, ss, List.filter_cons]
      by_cases hq : (identQualifies i && isStrEq (identTypeOf i) "issn") = true <;>
        simp [hq, getLast?_getD_cons]
    · rw [List.foldl_cons, hsi, ssi, List.filter_cons]
      by_cases hq : (identQualifies i && isStrEq (identTypeOf i) "sierra-system-number") = true <;>
        simp [hq, getLast?_getD_cons]
    · rw [List.foldl_cons, hw, sw, List.filter_cons]
      by_cases hq : (identQualifies i && containsWellcome (identTypeOf i)) = true <;>
        simp [hq, getLast?_getD_cons]

/-! Helper lemmas about the two loaders. -/

theorem loadWorks_none_idx (lines : List Line) : ∀ i j : Nat,
    loadWorks none i lines = loadWorks none j lines := by
  induction lines with
  | nil => intro i j; rfl
  | cons l rest ih =>
    intro i j
    cases l <;> simp [loadWorks, capHit, ih (i + 1) (j + 1)]

theorem loadWorks_none_map (lines : List Line) : ∀ i : Nat,
    loadWorks none i lines = (lines.filterMap id).map extract_all_fields := by
  induction lines with
  | nil => intro i; rfl
  | cons l rest ih =>
    intro i
    cases l <;> simp [loadWorks, capHit, List.filterMap_cons, ih (i + 1)]

theorem loadWorks_some_take (lines : List Line) : ∀ n i : Nat,
    loadWorks (some n) i lines = loadWorks none 0 (lines.take (n - i)) := by
  induction lines with
  | nil => intro n i; simp [loadWorks]
  | cons l rest ih =>
    intro n i
    by_cases h : n ≤ i
    · have h0 : n - i = 0 := Nat.sub_eq_zero_of_le h
      simp [loadWorks, capHit, h, h0]
    · have hsub : n - i = (n - (i + 1)) + 1 := by omega
      rw [hsub]
      cases l with
      | some w =>
        simp only [loadWorks, capHit, h, List.take_succ_cons, decide_eq_true_eq, if_neg h]
        rw [ih n (i + 1), loadWorks_none_idx (rest.take (n - (i + 1))) 1 0]
        simp
      | none =>
        simp only [loadWorks, capHit, h, List.take_succ_cons, decide_eq_true_eq, if_neg h]
        rw [ih n (i + 1), loadWorks_none_idx (rest.take (n - (i + 1))) 1 0]
        simp

theorem filterMap_id_len_of_all_isSome (l : List Line) (h : ∀ x ∈ l, x.isSome) :
    (l.filterMap id).length = l.length := by
  induction l with
  | nil => rfl
  | cons x rest ih =>
    cases x with
    | some j =>
      simp only [List.filterMap_cons, id, List.length_cons]
      rw [ih (fun y hy => h y (List.mem_cons_of_mem _ hy))]
    | none =>
      exact absurd (h none (List.mem_cons_self _ _)) (by simp)

theorem loadLines_ne_fileNotFound (lines : List Line) :
    loadLines lines ≠ Except.error LoadError.fileNotFound := by
  induction lines with
  | nil => simp [loadLines]
  | cons l rest ih =>
    cases l with
    | none => simp [loadLines]
    | some j =>
      simp only [loadLines]
      cases h : loadLines rest with
      | ok v => simp
      | error e =>
        intro hc
        injection hc with he
        subst he
        exact ih h

/-! Claim theorems. -/

/-- C1 (counterexample): the claim says a malformed line does not count
toward the record cap, so a stream of one malformed line followed by one
valid line should, under cap 1, still produce 1 record; the loop caps on the
`enumerate` line index, so it produces 0. -/
theorem C1_cap_counts_lines_cex :
    ¬ ((load_wellcome_data (some 1) [Option.none, some (Json.obj [])]).length = 1) := by
  decide

/-- C1 (amended): the cap counts lines, not successfully parsed records —
capping at `n` equals truncating the input to its first `n` lines; with no
cap the record count is the number of parseable lines (so one malformed line
among N valid ones yields N records); when every line parses, the record
count is min(number of lines, cap). -/
theorem C1_cap_by_line_index (n : Nat) (lines : List Line) :
    load_wellcome_data (some n) lines = load_wellcome_data none (lines.take n)
    ∧ (load_wellcome_data none lines).length = (lines.filterMap id).length
    ∧ ((∀ x ∈ lines, x.isSome) →
        (load_wellcome_data (some n) lines).length = min lines.length n) := by
  refine ⟨?_, ?_, ?_⟩
  · have h := loadWorks_some_take lines n 0
    simpa [load_wellcome_data] using h
  · simp [load_wellcome_data, loadWorks_none_map lines 0]
  · intro hall
    have h1 := loadWorks_some_take lines n 0
    rw [load_wellcome_data, h1, Nat.sub_zero, loadWorks_none_map _ 0, List.length_map]
    rw [filterMap_id_len_of_all_isSome _ (fun x hx => hall x (List.take_subset n lines hx))]
    rw [List.length_take]
    exact Nat.min_comm n lines.length

/-- C1 (witness): on three valid lines with cap 2, exactly min 3 2 records. -/
theorem C1_cap_by_line_index_witness :
    (load_wellcome_data (some 2)
      [some (Json.obj []), some (Json.obj []), some (Json.obj [])]).length = min 3 2 :=
  (C1_cap_by_line_index 2 [some (Json.obj []), some (Json.obj []), some (Json.obj [])]).2.2
    (by decide)

/-- C2 (counterexample): a record with one subject that has a label but no
id produces one joined subjects entry and an empty (null) subject_ids field,
so the subject id list does not have one entry per label entry — truncation
is not confined to the contributors group. -/
theorem C2_ids_lockstep_cex :
    (extract_all_fields exampleNoIdSubjectWork).subjects = Json.str "X"
    ∧ (extract_all_fields exampleNoIdSubjectWork).subject_ids = Json.null
    ∧ ¬ ((labelIdFold [Json.obj [("label", Json.str "X")]]).2.length
         = (labelIdFold [Json.obj [("label", Json.str "X")]]).1.length) :=
  ⟨rfl, rfl, by decide⟩

/-- C2 (amended): labels and roles stay in lock-step (one role per collected
label in the contributors group), but in all four groups — contributors,
subjects, genres, languages — an id is appended only when the element has
one, so the id list has exactly one entry per element that carries both a
label and an id, not per label entry. -/
theorem C2_lockstep_amended (l : List Json) :
    ((contribFold l).2.2).length = ((contribFold l).1).length
    ∧ (labelIdFold l).1 = (l.filter entryHasLabel).map entryLabel
    ∧ (labelIdFold l).2 = ((l.filter entryHasLabel).filter entryHasId).map entryId
    ∧ (contribFold l).1 = (l.filter hasAgentLabel).map agentLabel
    ∧ (contribFold l).2.1 = ((l.filter hasAgentLabel).filter hasAgentId).map agentId := by
  refine ⟨?_, ?_, ?_, ?_, ?_⟩ <;> simp [contribFold_eq, labelIdFold_eq]

/-- C3: every flattened record has exactly the fixed key set, in dict
insertion order; the fully-absent record maps every field to its default
(null scalars and joins, count 0, digitized false); and absent source fields
yield the defaults (shown for a scalar, a joined group and the items
group). -/
theorem C3_fixed_keys_defaults (w : Json) :
    ((extract_all_fields w).toPairs.map Prod.fst = flatKeys)
    ∧ ((extract_all_fields (Json.obj [])).toPairs
        = [("id", Json.null), ("title", Json.null), ("alternativeTitles", Json.null),
           ("workType", Json.null), ("workType_id", Json.null),
           ("description", Json.null), ("physicalDescription", Json.null),
           ("lettering", Json.null), ("edition", Json.null),
           ("production_date", Json.null), ("production_date_from", Json.null),
           ("production_date_to", Json.null), ("production_places", Json.null),
           ("production_agents", Json.null), ("production_function", Json.null),
           ("contributors", Json.null), ("contributor_roles", Json.null),
           ("contributor_ids", Json.null), ("subjects", Json.null),
           ("subject_ids", Json.null), ("genres", Json.null), ("genre_ids", Json.null),
           ("languages", Json.null), ("language_ids", Json.null),
           ("identifiers", Json.null), ("isbn", Json.null), ("issn", Json.null),
           ("sierra_system_number", Json.null), ("wellcome_library_number", Json.null),
           ("notes", Json.null), ("note_types", Json.null), ("thumbnail_url", Json.null),
           ("has_digitized_items", Json.bool false), ("items_count", Json.num 0),
           ("availability_status", Json.null), ("partOf_title", Json.null),
           ("partOf_id", Json.null), ("parts_count", Json.num 0),
           ("precededBy_title", Json.null), ("precededBy_id", Json.null),
           ("succeededBy_title", Json.null), ("succeededBy_id", Json.null),
           ("holdings_count", Json.num 0), ("referenceNumber", Json.null),
           ("images_count", Json.num 0)])
    ∧ (w.lookup "title" = none → (extract_all_fields w).title = Json.null)
    ∧ (w.lookup "subjects" = none →
        (extract_all_fields w).subjects = Json.null
        ∧ (extract_all_fields w).subject_ids = Json.null)
    ∧ (w.lookup "items" = none →
        (extract_all_fields w).items_count = Json.num 0
        ∧ (extract_all_fields w).has_digitized_items = Json.bool false
        ∧ (extract_all_fields w).availability_status = Json.null) := by
  refine ⟨rfl, rfl, ?_, ?_, ?_⟩
  · intro h
    show w.getD "title" Json.null = Json.null
    simp [Json.getD, h]
  · intro h
    constructor
    · show joinWith "; " (labelIdFold ((w.getD "subjects" (Json.arr [])).asArr)).1 = Json.null
      simp [Json.getD, h, Json.asArr, labelIdFold, joinWith]
    · show joinWith "; " (labelIdFold ((w.getD "subjects" (Json.arr [])).asArr)).2 = Json.null
      simp [Json.getD, h, Json.asArr, labelIdFold, joinWith]
  · intro h
    refine ⟨?_, ?_, ?_⟩
    · show Json.num (((w.getD "items" (Json.arr [])).asArr.length : Int)) = Json.num 0
      simp [Json.getD, h, Json.asArr]
    · show Json.bool (itemScan ((w.getD "items" (Json.arr [])).asArr)).1 = Json.bool false
      simp [Json.getD, h, Json.asArr, itemScan]
    · show (if (itemScan ((w.getD "items" (Json.arr [])).asArr)).2.isEmpty then Json.null
            else Json.str (String.intercalate "; "
              ((dedupFirst (itemScan ((w.getD "items" (Json.arr [])).asArr)).2).map pyStr)))
          = Json.null
      simp [Json.getD, h, Json.asArr, itemScan]

/-- C3 (witness): the defaults hold at the empty record. -/
theorem C3_fixed_keys_defaults_witness :
    (extract_all_fields (Json.obj [])).title = Json.null
    ∧ (extract_all_fields (Json.obj [])).subjects = Json.null
    ∧ (extract_all_fields (Json.obj [])).items_count = Json.num 0 :=
  ⟨(C3_fixed_keys_defaults (Json.obj [])).2.2.1 rfl,
   ((C3_fixed_keys_defaults (Json.obj [])).2.2.2.1 rfl).1,
   ((C3_fixed_keys_defaults (Json.obj [])).2.2.2.2 rfl).1⟩

/-- C5 (counterexample): `load_data` does not skip a malformed line — on a
stream whose only line fails to parse, the JSON decode error surfaces to the
caller instead of the decoded sequence of parseable lines. -/
theorem C5_load_data_error_cex :
    load_data (fun _ => some [Option.none]) "works.json.gz"
      = Except.error LoadError.jsonDecode
    ∧ ¬ (load_data (fun _ => some [Option.none]) "works.json.gz"
          = Except.ok (([Option.none] : List Line).filterMap id)) := by
  constructor
  · rfl
  · intro h
    simp [load_data, loadLines] at h

/-- C5 (amended): only the decode loop of `load_wellcome_data` skips
malformed lines silently (its output is the flattening of exactly the
parseable lines in file order); `load_data` instead propagates the decode
error as soon as a malformed line is reached. -/
theorem C5_skip_only_in_scripts_loader :
    (∀ lines : List Line,
        load_wellcome_data none lines = (lines.filterMap id).map extract_all_fields)
    ∧ (∀ rest : List Line,
        loadLines (Option.none :: rest) = Except.error LoadError.jsonDecode) :=
  ⟨fun lines => loadWorks_none_map lines 0, fun _ => rfl⟩

/-- C6: `load_data` fails with the file-not-found error exactly on missing
paths — it returns that error when the path does not exist (before touching
any line), and never returns it when the path exists. -/
theorem C6_notfound_iff_missing (files : String → Option (List Line)) (path : String) :
    (files path = none → load_data files path = Except.error LoadError.fileNotFound)
    ∧ (∀ lines, files path = some lines →
        load_data files path ≠ Except.error LoadError.fileNotFound) := by
  constructor
  · intro h
    simp [load_data, h]
  · intro lines h
    simp only [load_data, h]
    exact loadLines_ne_fileNotFound lines

/-- C6 (witness): a missing path errors, an existing path does not. -/
theorem C6_notfound_iff_missing_witness :
    load_data (fun p => if p = "works.json.gz" then some ([] : List Line) else none) "missing"
      = Except.error LoadError.fileNotFound
    ∧ load_data (fun p => if p = "works.json.gz" then some ([] : List Line) else none)
        "works.json.gz"
      ≠ Except.error LoadError.fileNotFound :=
  ⟨(C6_notfound_iff_missing (fun p => if p = "works.json.gz" then some [] else none)
      "missing").1 rfl,
   (C6_notfound_iff_missing (fun p => if p = "works.json.gz" then some [] else none)
      "works.json.gz").2 [] rfl⟩

/-- C4: every identifier entry with a truthy type id and value contributes
`"type:value"` to the joined identifiers field; the four scalar fields hold
the value of the last qualifying entry whose type id matches (exact match
for isbn / issn / sierra-system-number, case-insensitive `wellcome`
substring for the library number); a wellcome-containing type id never
collides with the three exact matches, so each entry routes to at most one
field; and the spec's worked example holds. -/
theorem C4_identifier_routing (w : Json) :
    (extract_all_fields w).identifiers = joinWith "; " (specIdentEntries (identList w))
    ∧ (extract_all_fields w).isbn = specRoute (fun t => isStrEq t "isbn") (identList w)
    ∧ (extract_all_fields w).issn = specRoute (fun t => isStrEq t "issn") (identList w)
    ∧ (extract_all_fields w).sierra_system_number
        = specRoute (fun t => isStrEq t "sierra-system-number") (identList w)
    ∧ (extract_all_fields w).wellcome_library_number
        = specRoute containsWellcome (identList w)
    ∧ (∀ t : Json, containsWellcome t = true →
        isStrEq t "isbn" = false ∧ isStrEq t "issn" = false
          ∧ isStrEq t "sierra-system-number" = false)
    ∧ (extract_all_fields exampleIdentWork).isbn = Json.str "123"
    ∧ (extract_all_fields exampleIdentWork).wellcome_library_number = Json.str "W1"
    ∧ (extract_all_fields exampleIdentWork).identifiers
        = Json.str "isbn:123; wellcome-number:W1" := by
  obtain ⟨hl, hb, hs, hsi, hw⟩ :=
    identFold_go (identList w) ⟨[], Json.null, Json.null, Json.null, Json.null⟩
  refine ⟨?_, ?_, ?_, ?_, ?_, wellcome_not_exact, rfl, rfl, rfl⟩
  · show joinWith "; " (identFold (identList w)).lst = _
    rw [identFold, hl, List.nil_append]
  · show (identFold (identList w)).isbn = _
    rw [identFold, hb]
    simp [specRoute]
  · show (identFold (identList w)).issn = _
    rw [identFold, hs]
    simp [specRoute]
  · show (identFold (identList w)).sierra = _
    rw [identFold, hsi]
    simp [specRoute]
  · show (identFold (identList w)).wellcome = _
    rw [identFold, hw]
    simp [specRoute]

/-- C4 (witness): the wellcome-containing type id of the worked example
matches none of the three exact routes. -/
theorem C4_identifier_routing_witness :
    isStrEq (Json.str "wellcome-number") "isbn" = false
    ∧ isStrEq (Json.str "wellcome-number") "issn" = false
    ∧ isStrEq (Json.str "wellcome-number") "sierra-system-number" = false :=
  (C4_identifier_routing (Json.obj [])).2.2.2.2.2.1 (Json.str "wellcome-number") rfl

/-- C7: the flattened production fields are computed from the head of the
production list alone; the function label comes from the first event, the
date label and range bounds from the first event's first date, and places
and agents collect all labels inside the first event; the spec's worked
example yields 1990 for the label and for both range bounds. -/
theorem C7_production_first_event (w p dateObj : Json) (rest dates2 : List Json) :
    (prodList w = p :: rest →
      ((extract_all_fields w).production_function = (prodExtract [p]).function
       ∧ (extract_all_fields w).production_date = (prodExtract [p]).date
       ∧ (extract_all_fields w).production_date_from = (prodExtract [p]).dateFrom
       ∧ (extract_all_fields w).production_date_to = (prodExtract [p]).dateTo
       ∧ (extract_all_fields w).production_places = joinWith "; " ((prodExtract [p]).places)
       ∧ (extract_all_fields w).production_agents = joinWith "; " ((prodExtract [p]).agents)))
    ∧ ((prodExtract (p :: rest)).places
        = ((p.getD "places" (Json.arr [])).asArr.filter entryHasLabel).map entryLabel)
    ∧ ((prodExtract (p :: rest)).agents
        = ((p.getD "agents" (Json.arr [])).asArr.filter entryHasLabel).map entryLabel)
    ∧ ((prodExtract (p :: rest)).function
        = (if p.hasKey "function" then (p.getD "function" Json.null).getD "label" Json.null
           else Json.null))
    ∧ ((p.getD "dates" (Json.arr [])).asArr = dateObj :: dates2 →
        ((prodExtract (p :: rest)).date = dateObj.getD "label" Json.null
         ∧ (dateObj.hasKey "range" = true →
             (prodExtract (p :: rest)).dateFrom
                = (dateObj.getD "range" Json.null).getD "from" Json.null
             ∧ (prodExtract (p :: rest)).dateTo
                = (dateObj.getD "range" Json.null).getD "to" Json.null)))
    ∧ (extract_all_fields exampleProdWork).production_date = Json.str "1990"
    ∧ (extract_all_fields exampleProdWork).production_date_from = Json.num 1990
    ∧ (extract_all_fields exampleProdWork).production_date_to = Json.num 1990 := by
  have hplaces : ∀ (q : Json) (qrest : List Json),
      (prodExtract (q :: qrest)).places = labelsOf ((q.getD "places" (Json.arr [])).asArr) := by
    intro q qrest
    rcases hd : (q.getD "dates" (Json.arr [])).asArr with _ | ⟨d0, ds⟩ <;>
      simp [prodExtract, hd]
  have hagents : ∀ (q : Json) (qrest : List Json),
      (prodExtract (q :: qrest)).agents = labelsOf ((q.getD "agents" (Json.arr [])).asArr) := by
    intro q qrest
    rcases hd : (q.getD "dates" (Json.arr [])).asArr with _ | ⟨d0, ds⟩ <;>
      simp [prodExtract, hd]
  refine ⟨?_, ?_, ?_, ?_, ?_, rfl, rfl, rfl⟩
  · intro h
    refine ⟨?_, ?_, ?_, ?_, ?_, ?_⟩
    · show (prodExtract (prodList w)).function = _
      rw [h]
      rfl
    · show (prodExtract (prodList w)).date = _
      rw [h]
      rfl
    · show (prodExtract (prodList w)).dateFrom = _
      rw [h]
      rfl
    · show (prodExtract (prodList w)).dateTo = _
      rw [h]
      rfl
    · show joinWith "; " (prodExtract (prodList w)).places = _
      rw [h]
      rfl
    · show joinWith "; " (prodExtract (prodList w)).agents = _
      rw [h]
      rfl
  · rw [hplaces p rest, labelsOf_eq]
  · rw [hagents p rest, labelsOf_eq]
  · rcases hd : (p.getD "dates" (Json.arr [])).asArr with _ | ⟨d0, ds⟩ <;>
      simp [prodExtract, hd]
  · intro hd
    constructor
    · by_cases hr : dateObj.hasKey "range" = true <;> simp [prodExtract, hd, hr]
    · intro hr
      constructor <;> simp [prodExtract, hd, hr]

/-- C7 (witness): the worked example instantiates both hypotheses. -/
theorem C7_production_first_event_witness :
    (extract_all_fields exampleProdWork).production_date = (prodExtract [exampleProdEvent]).date
    ∧ (prodExtract [exampleProdEvent]).date = exampleProdDate.getD "label" Json.null
    ∧ (prodExtract [exampleProdEvent]).dateFrom
        = (exampleProdDate.getD "range" Json.null).getD "from" Json.null :=
  ⟨((C7_production_first_event exampleProdWork exampleProdEvent exampleProdDate [] []).1
      rfl).2.1,
   ((C7_production_first_event exampleProdWork exampleProdEvent exampleProdDate [] []).2.2.2.2.1
      rfl).1,
   (((C7_production_first_event exampleProdWork exampleProdEvent exampleProdDate [] []).2.2.2.2.1
      rfl).2 rfl).1⟩

/-- C8: items_count is the length of the items list; the digitized flag is
true exactly when some location of some item has location type id "online";
and the availability field is the "; "-join of the de-duplicated collected
status labels, null when none were collected; the spec's worked example has
a true flag and count 2. -/
theorem C8_items_availability (w : Json) :
    (extract_all_fields w).items_count = Json.num ((itemList w).length : Int)
    ∧ (extract_all_fields w).has_digitized_items = Json.bool (specHasDigitized (itemList w))
    ∧ ((extract_all_fields w).has_digitized_items = Json.bool true ↔
        ∃ item ∈ itemList w, ∃ loc ∈ locList item,
          isStrEq ((loc.getD "locationType" (Json.obj [])).getD "id" Json.null) "online" = true)
    ∧ (extract_all_fields w).availability_status
        = joinWith "; " (dedupFirst (specAvailLabels (itemList w)))
    ∧ (extract_all_fields exampleItemsWork).has_digitized_items = Json.bool true
    ∧ (extract_all_fields exampleItemsWork).items_count = Json.num 2 := by
  have hscan := itemScan_eq (itemList w)
  refine ⟨rfl, ?_, ?_, ?_, rfl, rfl⟩
  · show Json.bool (itemScan (itemList w)).1 = _
    rw [hscan]
  · show Json.bool (itemScan (itemList w)).1 = Json.bool true ↔ _
    rw [hscan]
    constructor
    · intro hb
      have hb2 : specHasDigitized (itemList w) = true := by injection hb
      simpa [specHasDigitized, List.any_eq_true, locList] using hb2
    · intro hex
      have hb2 : specHasDigitized (itemList w) = true := by
        simpa [specHasDigitized, List.any_eq_true, locList] using hex
      rw [hb2]
  · show (if (itemScan (itemList w)).2.isEmpty then Json.null
          else Json.str (String.intercalate "; "
            ((dedupFirst (itemScan (itemList w)).2).map pyStr)))
        = _
    rw [hscan]
    cases hl : specAvailLabels (itemList w) with
    | nil => simp [dedupFirst, joinWith]
    | cons x xs => simp [dedupFirst, joinWith]

/-- C9: each contributor whose agent has a label contributes the label; its
agent id is contributed only when present; its role entry is the first
role's label with literal "Unknown" when no role is listed; the three lists
are joined independently with "; "; and a record without a contributors key
yields null for all three fields. -/
theorem C9_contributors (w : Json) :
    (extract_all_fields w).contributors
      = joinWith "; " (((contribList w).filter hasAgentLabel).map agentLabel)
    ∧ (extract_all_fields w).contributor_ids
      = joinWith "; " ((((contribList w).filter hasAgentLabel).filter hasAgentId).map agentId)
    ∧ (extract_all_fields w).contributor_roles
      = joinWith "; " (((contribList w).filter hasAgentLabel).map specRoleOf)
    ∧ (w.lookup "contributors" = none →
        (extract_all_fields w).contributors = Json.null
        ∧ (extract_all_fields w).contributor_roles = Json.null
        ∧ (extract_all_fields w).contributor_ids = Json.null) := by
  have hcf := contribFold_eq (contribList w)
  refine ⟨?_, ?_, ?_, ?_⟩
  · show joinWith "; " (contribFold (contribList w)).1 = _
    rw [hcf]
  · show joinWith "; " (contribFold (contribList w)).2.1 = _
    rw [hcf]
  · show joinWith "; " (contribFold (contribList w)).2.2 = _
    rw [hcf]
  · intro h
    have hnil : contribList w = [] := by simp [contribList, Json.getD, h, Json.asArr]
    refine ⟨?_, ?_, ?_⟩
    · show joinWith "; " (contribFold (contribList w)).1 = Json.null
      rw [hnil]
      rfl
    · show joinWith "; " (contribFold (contribList w)).2.2 = Json.null
      rw [hnil]
      rfl
    · show joinWith "; " (contribFold (contribList w)).2.1 = Json.null
      rw [hnil]
      rfl

/-- C9 (witness): the record with no contributors key at all. -/
theorem C9_contributors_witness :
    (extract_all_fields (Json.obj [])).contributors = Json.null
    ∧ (extract_all_fields (Json.obj [])).contributor_roles = Json.null
    ∧ (extract_all_fields (Json.obj [])).contributor_ids = Json.null :=
  (C9_contributors (Json.obj [])).2.2.2 rfl

/-- C10: only conditions with a status key and a truthy label contribute to
the collected availability labels — a present status object whose label is
absent, null or "" contributes nothing — and a record whose only access
conditions carry empty-string labels has a null availability field. -/
theorem C10_availability_truthy_only (conds : List Json) :
    condLabels conds
      = (conds.filter (fun c => c.hasKey "status" && (specStatusLabel c).truthy)).map
          specStatusLabel
    ∧ condLabels [Json.obj [("status", Json.obj [])]] = []
    ∧ condLabels [Json.obj [("status", Json.obj [("label", Json.null)])]] = []
    ∧ condLabels [Json.obj [("status", Json.obj [("label", Json.str "")])]] = []
    ∧ (extract_all_fields exampleEmptyStatusWork).availability_status = Json.null :=
  ⟨condLabels_eq conds, rfl, rfl, rfl, rfl⟩

end WellcomeML
